import Mathlib

/-!
Verification of the coordinate-and-delay transform library in
`TensorVis/coords.py`.

The Python module is a set of pure numerical functions over float64
tensors.  We embed it shallowly over `ℝ`:

* scalars become real numbers; `tf.math.sin/cos/sqrt/asin/acos/atan2`
  become `Real.sin/cos/sqrt/arcsin/arccos` and a two-argument
  arctangent `atan2` defined as the complex argument (which matches the
  IEEE/TensorFlow `atan2` convention, including `atan2 0 0 = 0`);
* a tensor of shape `(3,)` becomes `Fin 3 → ℝ`; a tensor of shape
  `(Nants, 3)` becomes `Fin na → Fin 3 → ℝ`, and so on, with the index
  order of a `tf.tensordot` result being the free axes of the first
  argument followed by the free axes of the second argument (this is
  the documented `tensordot` semantics);
* `tf.where(c, a, b)` becomes `if c then a else b` pointwise;
* `tf.math.sign` becomes `Real.sign` (both send negatives to -1,
  zero to 0, positives to 1).
-/

namespace TensorVis

open Real

noncomputable section

/-- Speed of light in m/s: the module constant `C = 299792458.`. -/
def C_val : ℝ := 299792458

/-- Module constant `HERA_LATITUDE` (radians). -/
def HERA_LATITUDE : ℝ := -0.5361917991288512

/-- Two-argument arctangent: `atan2 y x` is the angle of the point
`(x, y)`, in `(-π, π]`, with `atan2 0 0 = 0`.  This is the semantics of
`tf.math.atan2(y, x)`; we realise it as the argument of the complex
number `x + y·i`. -/
def atan2 (y x : ℝ) : ℝ := Complex.arg ⟨x, y⟩

/-- The equatorial unit vector built by `equatorial_to_topocentric`
(the `tf.stack` named `eq_coords` in the source):
`(cos(ra)*cos(dec), cos(dec)*sin(ra), sin(dec))`. -/
def eq_coords (ra dec : ℝ) : Fin 3 → ℝ :=
  ![cos ra * cos dec, cos dec * sin ra, sin dec]

/-- The projection operator built by `equatorial_to_topocentric`
(the nested `tf.stack` named `topo_coords` in the source), for one
value of `lst`.  `tf.zeros_like(lst)` contributes the entry `0` and
`tf.ones_like(lst)` the factor `1`. -/
def topo_coords (lst latitude : ℝ) : Fin 3 → Fin 3 → ℝ :=
  ![![-sin lst, cos lst, 0],
    ![-sin latitude * cos lst, -sin latitude * sin lst, cos latitude],
    ![cos latitude * cos lst, cos latitude * sin lst, sin latitude]]

/-- `equatorial_to_topocentric` for scalar `ra`, `dec`, `lst`:
`tf.tensordot(topo_coords, eq_coords, axes=[[1], [0]])`, i.e. the
contraction over the length-3 equatorial axis. -/
def equatorial_to_topocentric (ra dec lst latitude : ℝ) : Fin 3 → ℝ :=
  fun i => ∑ j, topo_coords lst latitude i j * eq_coords ra dec j

/-- `equatorial_to_topocentric` for batched inputs: `lst` of shape `(T,)`
and `ra`, `dec` of shape `(N,)`.  In the source, the nested stack
`topo_coords` then has shape `(3, 3, T)` with entry `[i, j, t]` equal to
`topo_coords (lst t) latitude i j`, and `eq_coords` has shape `(3, N)`
with entry `[j, s]` equal to `eq_coords (ra s) (dec s) j`.
`tf.tensordot(topo_coords, eq_coords, axes=[[1], [0]])` contracts `j`
and orders the output axes as the free axes of `topo_coords` `(i, t)`
followed by the free axis of `eq_coords` `(s)`: shape `(3, T, N)`. -/
def equatorial_to_topocentric_batched {T N : ℕ} (ra dec : Fin N → ℝ)
    (lst : Fin T → ℝ) (latitude : ℝ) : Fin 3 → Fin T → Fin N → ℝ :=
  fun i t s => ∑ j, topo_coords (lst t) latitude i j * eq_coords (ra s) (dec s) j

/-- `topocentric_to_az_za(l, m)` from the source:
`lsqr = l**2 + m**2`; `n = tf.where(lsqr < 1., sqrt(1 - lsqr), 0.)`;
returns `(az, za) = (-atan2(m, l), pi/2 - asin(n))` (the source's
`return az, za`). -/
def topocentric_to_az_za (l m : ℝ) : ℝ × ℝ :=
  let lsqr := l ^ 2 + m ^ 2
  let n := if lsqr < 1 then sqrt (1 - lsqr) else 0
  let az := -atan2 m l
  let za := Real.pi / 2 - arcsin n
  (az, za)

/-- `topocentric_to_delay(topo_cosines, antpos)` for a single source
(cosines of shape `(3,)`):
`tf.tensordot(antpos, topo_cosines, axes=[1, 0]) / C`. -/
def topocentric_to_delay {na : ℕ} (topo_cosines : Fin 3 → ℝ)
    (antpos : Fin na → Fin 3 → ℝ) : Fin na → ℝ :=
  fun a => (∑ j, antpos a j * topo_cosines j) / C_val

/-- `topocentric_to_delay(topo_cosines, antpos)` for a batch of sources:
cosines of shape `(3, Nsrc)`, `antpos` of shape `(na, 3)`.
`tf.tensordot(antpos, topo_cosines, axes=[1, 0])` contracts antenna
axis 1 with cosine axis 0 and orders the output axes as the free axis
of `antpos` (the antenna axis) followed by the free axis of
`topo_cosines` (the source axis): shape `(na, Nsrc)`. -/
def topocentric_to_delay_batched {na ns : ℕ} (topo_cosines : Fin 3 → Fin ns → ℝ)
    (antpos : Fin na → Fin 3 → ℝ) : Fin na → Fin ns → ℝ :=
  fun a s => (∑ j, antpos a j * topo_cosines j s) / C_val

/-- `eq_to_az_za(ra, dec, lst, latitude)` from the source, including the
`FIXME`-flagged azimuth formula, returned in the source's order
`(pi/2 - alt, sign(asin(sin_az)) * acos(cos_az))`. -/
def eq_to_az_za (ra dec lst latitude : ℝ) : ℝ × ℝ :=
  let lat := latitude
  let sin_alt := sin dec * sin lat + cos dec * cos lat * cos (lst - ra)
  let alt := arcsin sin_alt
  let sin_az := sin (ra - lst) * cos dec / cos alt
  let cos_az := (sin dec - sin lat * sin_alt) / (cos lat * cos alt)
  (Real.pi / 2 - alt, Real.sign (arcsin sin_az) * arccos cos_az)

/-- `az_za_to_delay(az, za, antpos)` from the source:
`alt = pi/2 - za`; `coord_proj = (-sin(az)cos(alt), cos(az)cos(alt),
sin(alt))`; `tf.tensordot(antpos, coord_proj, axes=[1, 0]) / C`. -/
def az_za_to_delay {na : ℕ} (az za : ℝ) (antpos : Fin na → Fin 3 → ℝ) : Fin na → ℝ :=
  let alt := Real.pi / 2 - za
  let coord_proj : Fin 3 → ℝ := ![-sin az * cos alt, cos az * cos alt, sin alt]
  fun a => (∑ j, antpos a j * coord_proj j) / C_val

/-- Definedness refinement of `eq_to_az_za` for its azimuth output.
Both `sin_az` and `cos_az` in the source divide by `cos(alt)`; when that
divisor is exactly zero the float64 computation produces a non-finite
(NaN) azimuth, which the real-valued embedding cannot represent, so
this variant returns `none` exactly when the divisor `cos(alt)` is
zero and otherwise the value of `eq_to_az_za`. -/
def eq_to_az_zaChecked (ra dec lst latitude : ℝ) : Option (ℝ × ℝ) :=
  let sin_alt := sin dec * sin latitude + cos dec * cos latitude * cos (lst - ra)
  if cos (arcsin sin_alt) = 0 then none else some (eq_to_az_za ra dec lst latitude)

/-- The projection matrix `P(lst, latitude)` exactly as the
specification lists its rows (row 0 → m, row 1 → l, row 2 → n). -/
def specP (lst latitude : ℝ) : Matrix (Fin 3) (Fin 3) ℝ :=
  ![![-sin lst, cos lst, 0],
    ![-sin latitude * cos lst, -sin latitude * sin lst, cos latitude],
    ![cos latitude * cos lst, cos latitude * sin lst, sin latitude]]

/-- The unit equatorial position vector `e` exactly as the
specification states it. -/
def specE (ra dec : ℝ) : Fin 3 → ℝ :=
  ![cos ra * cos dec, cos dec * sin ra, sin dec]

/-- The modulus of the complex number `x + y·i` is `sqrt (x² + y²)`. -/
lemma abs_mk (x y : ℝ) : Complex.abs ⟨x, y⟩ = sqrt (x ^ 2 + y ^ 2) := by
  rw [Complex.abs_apply, Complex.normSq_mk]
  congr 1
  ring

/-- Recovering the second coordinate from `atan2`. -/
lemma sin_atan2_mul (y x : ℝ) : sin (atan2 y x) * sqrt (x ^ 2 + y ^ 2) = y := by
  rw [atan2, Complex.sin_arg, ← abs_mk x y]
  rcases eq_or_ne (Complex.abs ⟨x, y⟩) 0 with h0 | h0
  · have hz : (⟨x, y⟩ : ℂ) = 0 := (map_eq_zero Complex.abs).mp h0
    have hy : y = 0 := by simpa using congrArg Complex.im hz
    simp only [h0, mul_zero]
    exact hy.symm
  · exact div_mul_cancel₀ _ h0

/-- Recovering the first coordinate from `atan2`. -/
lemma cos_atan2_mul (y x : ℝ) : cos (atan2 y x) * sqrt (x ^ 2 + y ^ 2) = x := by
  rw [atan2, ← abs_mk x y]
  rcases eq_or_ne ((⟨x, y⟩ : ℂ)) 0 with hz | hz
  · have hx : x = 0 := by simpa using congrArg Complex.re hz
    have h0 : Complex.abs ⟨x, y⟩ = 0 := by rw [hz]; simp
    rw [h0, mul_zero, hx]
  · have habs : Complex.abs ⟨x, y⟩ ≠ 0 := by simpa [map_eq_zero] using hz
    rw [Complex.cos_arg hz]
    exact div_mul_cancel₀ _ habs

/-- Expanded form of `az_za_to_delay` for one antenna. -/
lemma az_za_to_delay_eq {na : ℕ} (az za : ℝ) (antpos : Fin na → Fin 3 → ℝ) (a : Fin na) :
    az_za_to_delay az za antpos a =
      (antpos a 0 * (-sin az * cos (Real.pi / 2 - za)) +
        antpos a 1 * (cos az * cos (Real.pi / 2 - za)) +
        antpos a 2 * sin (Real.pi / 2 - za)) / C_val := by
  unfold az_za_to_delay
  simp [Fin.sum_univ_three]

/-- Expanded form of `topocentric_to_delay` for one antenna. -/
lemma topocentric_to_delay_eq {na : ℕ} (t : Fin 3 → ℝ) (antpos : Fin na → Fin 3 → ℝ)
    (a : Fin na) :
    topocentric_to_delay t antpos a =
      (antpos a 0 * t 0 + antpos a 1 * t 1 + antpos a 2 * t 2) / C_val := by
  unfold topocentric_to_delay
  rw [Fin.sum_univ_three]

/-- Claim C1: for every per-source `ra`, `dec`, per-time `lst` and scalar
latitude, `equatorial_to_topocentric` returns exactly
`P(lst, latitude) · e`, contracted over the length-3 equatorial axis,
with outer-product batching (entry `[i, t, s]` pairs every lst with
every source), so the output components along axis 0 are ordered
`(m, l, n)` as given by the rows of `P`. -/
theorem C1_equatorial_to_topocentric_is_P_mul_e {T N : ℕ} (ra dec : Fin N → ℝ)
    (lst : Fin T → ℝ) (latitude : ℝ) (i : Fin 3) (t : Fin T) (s : Fin N) :
    equatorial_to_topocentric_batched ra dec lst latitude i t s =
      Matrix.mulVec (specP (lst t) latitude) (specE (ra s) (dec s)) i := by
  rfl

/-- Claim C2: for all real `l`, `m`, `topocentric_to_az_za` computes
`lsqr = l² + m²`, `n = sqrt(1 - lsqr)` when `lsqr < 1` and `n = 0`
otherwise, and returns `az = -atan2(m, l)` and `za = π/2 - asin(n)`. -/
theorem C2_topocentric_to_az_za_formula (l m : ℝ) :
    topocentric_to_az_za l m =
      (-atan2 m l,
        Real.pi / 2 -
          arcsin (if l ^ 2 + m ^ 2 < 1 then sqrt (1 - (l ^ 2 + m ^ 2)) else 0)) := by
  rfl

/-- Claim C3: for an above-horizon cosine vector `(m, l, n)` with
`l² + m² < 1` and `n = sqrt(1 - l² - m²)`, feeding `(l, m)` through
`topocentric_to_az_za` and the resulting `(az, za)` through
`az_za_to_delay` yields exactly the same per-antenna delays as
`topocentric_to_delay` applied directly to the cosines (hence in
particular agreement to within 1e-9 seconds). -/
theorem C3_roundtrip_delay {na : ℕ} (l m : ℝ) (h : l ^ 2 + m ^ 2 < 1)
    (antpos : Fin na → Fin 3 → ℝ) (a : Fin na) :
    az_za_to_delay (topocentric_to_az_za l m).1 (topocentric_to_az_za l m).2 antpos a =
      topocentric_to_delay ![m, l, sqrt (1 - l ^ 2 - m ^ 2)] antpos a := by
  have hsq : (0:ℝ) ≤ l ^ 2 + m ^ 2 := by positivity
  have hn0 : (0:ℝ) ≤ 1 - (l ^ 2 + m ^ 2) := by linarith
  have hza : (topocentric_to_az_za l m).2 =
      Real.pi / 2 - arcsin (sqrt (1 - (l ^ 2 + m ^ 2))) := by
    simp only [topocentric_to_az_za, if_pos h]
  have haz : (topocentric_to_az_za l m).1 = -atan2 m l := rfl
  have hsub : Real.pi / 2 - (Real.pi / 2 - arcsin (sqrt (1 - (l ^ 2 + m ^ 2)))) =
      arcsin (sqrt (1 - (l ^ 2 + m ^ 2))) := by ring
  have hsin : sin (arcsin (sqrt (1 - (l ^ 2 + m ^ 2)))) = sqrt (1 - (l ^ 2 + m ^ 2)) :=
    Real.sin_arcsin (le_trans (by norm_num) (Real.sqrt_nonneg _))
      (Real.sqrt_le_one.mpr (by linarith))
  have hcos : cos (arcsin (sqrt (1 - (l ^ 2 + m ^ 2)))) = sqrt (l ^ 2 + m ^ 2) := by
    rw [Real.cos_arcsin, Real.sq_sqrt hn0]
    congr 1
    ring
  have harg : sqrt (1 - (l ^ 2 + m ^ 2)) = sqrt (1 - l ^ 2 - m ^ 2) := by
    congr 1
    ring
  rw [az_za_to_delay_eq, topocentric_to_delay_eq, haz, hza, hsub, hsin, hcos]
  rw [Real.sin_neg, Real.cos_neg, neg_neg, sin_atan2_mul m l, cos_atan2_mul m l, harg]
  simp

/-- Witness for C3 at `l = 0`, `m = 0` with the specification's
representative 3-antenna layout, antenna index 1. -/
theorem C3_roundtrip_delay_witness :
    ((0:ℝ) ^ 2 + (0:ℝ) ^ 2 < 1) ∧
      az_za_to_delay (topocentric_to_az_za 0 0).1 (topocentric_to_az_za 0 0).2
          ![![0, 0, 0], ![14.6, 0, 0], ![0, 14.6, 0]] 1 =
        topocentric_to_delay ![(0:ℝ), 0, sqrt (1 - (0:ℝ) ^ 2 - (0:ℝ) ^ 2)]
          ![![0, 0, 0], ![14.6, 0, 0], ![0, 14.6, 0]] 1 :=
  ⟨by norm_num, C3_roundtrip_delay 0 0 (by norm_num) ![![0, 0, 0], ![14.6, 0, 0], ![0, 14.6, 0]] 1⟩

/-- Claim C5: the three components `(m, l, n)` returned by
`equatorial_to_topocentric` satisfy `l² + m² + n² = 1` whenever the
source is above the horizon (`l² + m² < 1`); over the reals the
identity is exact. -/
theorem C5_unit_norm (ra dec lst latitude : ℝ)
    (h : equatorial_to_topocentric ra dec lst latitude 1 ^ 2 +
        equatorial_to_topocentric ra dec lst latitude 0 ^ 2 < 1) :
    equatorial_to_topocentric ra dec lst latitude 1 ^ 2 +
      equatorial_to_topocentric ra dec lst latitude 0 ^ 2 +
      equatorial_to_topocentric ra dec lst latitude 2 ^ 2 = 1 := by
  have hA := Real.sin_sq_add_cos_sq lst
  have hB := Real.sin_sq_add_cos_sq latitude
  have hR := Real.sin_sq_add_cos_sq ra
  have hD := Real.sin_sq_add_cos_sq dec
  simp [equatorial_to_topocentric, topo_coords, eq_coords, Fin.sum_univ_succ]
  linear_combination
    ((cos ra * cos dec) ^ 2 + (cos dec * sin ra) ^ 2) * hA +
      (cos lst ^ 2 * (cos ra * cos dec) ^ 2 + sin lst ^ 2 * (cos dec * sin ra) ^ 2 +
        sin dec ^ 2 + 2 * sin lst * cos lst * (cos ra * cos dec) * (cos dec * sin ra)) * hB +
      cos dec ^ 2 * hR + hD

/-- Witness for C5 at `ra = dec = lst = latitude = 0`. -/
theorem C5_unit_norm_witness :
    (equatorial_to_topocentric 0 0 0 0 1 ^ 2 +
        equatorial_to_topocentric 0 0 0 0 0 ^ 2 < 1) ∧
      equatorial_to_topocentric 0 0 0 0 1 ^ 2 +
        equatorial_to_topocentric 0 0 0 0 0 ^ 2 +
        equatorial_to_topocentric 0 0 0 0 2 ^ 2 = 1 := by
  have hlt : equatorial_to_topocentric 0 0 0 0 1 ^ 2 +
      equatorial_to_topocentric 0 0 0 0 0 ^ 2 < 1 := by
    simp [equatorial_to_topocentric, topo_coords, eq_coords, Fin.sum_univ_succ]
  exact ⟨hlt, C5_unit_norm 0 0 0 0 hlt⟩

/-- Claim C6: `topocentric_to_az_za` is total on the closed/below
horizon region: for `l² + m² ≥ 1` it returns `za = π/2` exactly and a
finite azimuth (bounded by π in absolute value). -/
theorem C6_horizon_clip (l m : ℝ) (h : 1 ≤ l ^ 2 + m ^ 2) :
    (topocentric_to_az_za l m).2 = Real.pi / 2 ∧
      |(topocentric_to_az_za l m).1| ≤ Real.pi := by
  constructor
  · have hnot : ¬ l ^ 2 + m ^ 2 < 1 := not_lt.mpr h
    simp only [topocentric_to_az_za, if_neg hnot]
    rw [Real.arcsin_zero, sub_zero]
  · show |-atan2 m l| ≤ Real.pi
    rw [abs_neg]
    exact Complex.abs_arg_le_pi _

/-- Witness for C6 at `l = 1`, `m = 0`. -/
theorem C6_horizon_clip_witness :
    ((1:ℝ) ≤ (1:ℝ) ^ 2 + (0:ℝ) ^ 2) ∧
      ((topocentric_to_az_za 1 0).2 = Real.pi / 2 ∧
        |(topocentric_to_az_za 1 0).1| ≤ Real.pi) :=
  ⟨by norm_num, C6_horizon_clip 1 0 (by norm_num)⟩

/-- The output of `topocentric_to_delay` as claim C4 asserts it is
shaped: source-major, shape `(..., Nants)`, entry `[s, a]` holding the
delay of source `s` at antenna `a`. -/
def topocentric_to_delay_claimed {na ns : ℕ} (topo_cosines : Fin 3 → Fin ns → ℝ)
    (antpos : Fin na → Fin 3 → ℝ) : Fin ns → Fin na → ℝ :=
  fun s a => (∑ j, antpos a j * topo_cosines j s) / C_val

/-- Counterexample to claim C4 as stated: with two sources and two
antennas, the entry at index `(0, 1)` of the actual `tensordot` result
(antenna 0, source 1) differs from the entry at `(0, 1)` of the claimed
source-major layout (source 0, antenna 1). -/
theorem C4_shape_counterexample :
    ¬ (topocentric_to_delay_batched ![![1, 3], ![0, 0], ![0, 0]]
          ![![1, 0, 0], ![2, 0, 0]] 0 1 =
        topocentric_to_delay_claimed ![![1, 3], ![0, 0], ![0, 0]]
          ![![1, 0, 0], ![2, 0, 0]] 0 1) := by
  simp [topocentric_to_delay_batched, topocentric_to_delay_claimed, Fin.sum_univ_succ,
    C_val]
  norm_num

/-- Claim C4 (amended): `topocentric_to_delay` returns
`(antpos · cosines) / c`, contracting over the length-3 spatial axis,
in units of seconds, but the output is antenna-major — shape
`(Nants, ...)`, the free axes of `antpos` preceding those of the
cosines in the `tensordot` result — with entry `[a, s]` equal to the
dot product of antenna `a`'s position with source `s`'s cosines over
the speed of light. -/
theorem C4_delay_formula {na ns : ℕ} (topo_cosines : Fin 3 → Fin ns → ℝ)
    (antpos : Fin na → Fin 3 → ℝ) (a : Fin na) (s : Fin ns) :
    topocentric_to_delay_batched topo_cosines antpos a s =
      Matrix.dotProduct (antpos a) (fun j => topo_cosines j s) / C_val := by
  rfl

/-- At the local zenith (`ra = lst`, `dec = latitude`) the topocentric
cosine vector produced by `equatorial_to_topocentric` is exactly
`(m, l, n) = (0, 0, 1)`. -/
lemma zenith_topo (lst latitude : ℝ) :
    equatorial_to_topocentric lst latitude lst latitude = ![0, 0, 1] := by
  funext i
  fin_cases i
  · simp [equatorial_to_topocentric, topo_coords, eq_coords, Fin.sum_univ_succ]
    ring
  · simp [equatorial_to_topocentric, topo_coords, eq_coords, Fin.sum_univ_succ]
    linear_combination (-(sin latitude * cos latitude)) * Real.sin_sq_add_cos_sq lst
  · simp [equatorial_to_topocentric, topo_coords, eq_coords, Fin.sum_univ_succ]
    linear_combination cos latitude ^ 2 * Real.sin_sq_add_cos_sq lst +
      Real.sin_sq_add_cos_sq latitude

/-- Counterexample to claim C7 as stated: for the zenith source at
`ra = dec = lst = latitude = 0`, a 2-antenna array whose antennas
differ in their vertical coordinate receives two different delays, so
the delay is not the same for every antenna of every array. -/
theorem C7_zenith_counterexample :
    ¬ (topocentric_to_delay (equatorial_to_topocentric 0 0 0 0)
          ![![0, 0, 0], ![0, 0, 1]] 0 =
        topocentric_to_delay (equatorial_to_topocentric 0 0 0 0)
          ![![0, 0, 0], ![0, 0, 1]] 1) := by
  rw [zenith_topo 0 0]
  simp [topocentric_to_delay, Fin.sum_univ_succ, C_val]

/-- Claim C7 (amended): for a source exactly at the local zenith
(`dec = latitude`, `ra = lst`) the composed pipeline gives `za = 0`,
and the delay of each antenna equals its vertical (third) coordinate
divided by c — so delays agree across antennas exactly when the
antennas share the same vertical coordinate, e.g. any coplanar layout
such as the specification's representative array. -/
theorem C7_zenith_za_delay (lst latitude : ℝ) {na : ℕ} (antpos : Fin na → Fin 3 → ℝ) :
    (topocentric_to_az_za (equatorial_to_topocentric lst latitude lst latitude 1)
        (equatorial_to_topocentric lst latitude lst latitude 0)).2 = 0 ∧
      ∀ a, topocentric_to_delay (equatorial_to_topocentric lst latitude lst latitude)
        antpos a = antpos a 2 / C_val := by
  rw [zenith_topo lst latitude]
  constructor
  · have h1 : ((![0, 0, 1] : Fin 3 → ℝ) 1) = 0 := rfl
    have h0 : ((![0, 0, 1] : Fin 3 → ℝ) 0) = 0 := rfl
    rw [h1, h0]
    norm_num [topocentric_to_az_za, Real.sqrt_one, Real.arcsin_one]
  · intro a
    simp [topocentric_to_delay, Fin.sum_univ_succ]

/-- The intermediate `sin_alt` of `eq_to_az_za`, as the specification
words it. -/
def spec_sin_alt (ra dec lst lat : ℝ) : ℝ :=
  sin dec * sin lat + cos dec * cos lat * cos (lst - ra)

/-- The intermediate `alt` of `eq_to_az_za`, as the specification words
it. -/
def spec_alt (ra dec lst lat : ℝ) : ℝ := arcsin (spec_sin_alt ra dec lst lat)

/-- The intermediate `sin_az` of `eq_to_az_za`, as the specification
words it. -/
def spec_sin_az (ra dec lst lat : ℝ) : ℝ :=
  sin (ra - lst) * cos dec / cos (spec_alt ra dec lst lat)

/-- The intermediate `cos_az` of `eq_to_az_za`, as the specification
words it. -/
def spec_cos_az (ra dec lst lat : ℝ) : ℝ :=
  (sin dec - sin lat * spec_sin_alt ra dec lst lat) /
    (cos lat * cos (spec_alt ra dec lst lat))

/-- Claim C8: `eq_to_az_za` returns its two results in the order
`(za, az)` — reversed relative to its name — with `za = π/2 - alt` and
the azimuth computed by the exact legacy formula
`sign(asin(sin_az)) * acos(cos_az)` over the specification's
intermediates. -/
theorem C8_eq_to_az_za_formula (ra dec lst latitude : ℝ) :
    eq_to_az_za ra dec lst latitude =
      (Real.pi / 2 - spec_alt ra dec lst latitude,
        Real.sign (arcsin (spec_sin_az ra dec lst latitude)) *
          arccos (spec_cos_az ra dec lst latitude)) := by
  rfl

/-- Claim C9: delay is linear in antenna position — scaling every
antenna coordinate by `k` scales every delay of both
`topocentric_to_delay` and `az_za_to_delay` by `k`. -/
theorem C9_delay_linear {na : ℕ} (k : ℝ) (topo_cosines : Fin 3 → ℝ) (az za : ℝ)
    (antpos : Fin na → Fin 3 → ℝ) (a : Fin na) :
    topocentric_to_delay topo_cosines (fun b j => k * antpos b j) a =
        k * topocentric_to_delay topo_cosines antpos a ∧
      az_za_to_delay az za (fun b j => k * antpos b j) a =
        k * az_za_to_delay az za antpos a := by
  constructor
  · rw [topocentric_to_delay_eq, topocentric_to_delay_eq]
    ring
  · rw [az_za_to_delay_eq, az_za_to_delay_eq]
    ring

/-- Claim C10: at the exact zenith singularity the two azimuth paths
diverge — `topocentric_to_az_za 0 0` is defined and returns
`(az, za) = (0, 0)`, whereas `eq_to_az_za` with `dec = latitude` and
`ra = lst` divides its azimuth intermediates by `cos(alt) = 0`, so its
azimuth is undefined (NaN in float64), modelled by
`eq_to_az_zaChecked` returning `none`. -/
theorem C10_zenith_divergence :
    topocentric_to_az_za 0 0 = (0, 0) ∧
      ∀ lst latitude : ℝ, eq_to_az_zaChecked lst latitude lst latitude = none := by
  constructor
  · have haz : (topocentric_to_az_za 0 0).1 = 0 := by
      show -atan2 0 0 = 0
      rw [atan2]
      have hz : ((⟨0, 0⟩ : ℂ)) = 0 := by
        apply Complex.ext <;> rfl
      rw [hz, Complex.arg_zero, neg_zero]
    have hza : (topocentric_to_az_za 0 0).2 = 0 := by
      norm_num [topocentric_to_az_za, Real.sqrt_one, Real.arcsin_one]
    rw [Prod.ext_iff]
    exact ⟨haz, hza⟩
  · intro lst latitude
    show (if cos (arcsin (sin latitude * sin latitude +
          cos latitude * cos latitude * cos (lst - lst))) = 0 then none
        else some (eq_to_az_za lst latitude lst latitude)) = none
    have h1 : sin latitude * sin latitude +
        cos latitude * cos latitude * cos (lst - lst) = 1 := by
      rw [sub_self, Real.cos_zero]
      linear_combination Real.sin_sq_add_cos_sq latitude
    rw [h1, Real.arcsin_one, Real.cos_pi_div_two]
    simp

end

end TensorVis
